import Mathlib

set_option maxHeartbeats 1000000

/- Shallow embedding of the Replk8 voice-agent call-session state machine:
   the webhook handlers of src/app.py together with the conversation-history
   logic of src/services/openai_service.py, the transcription wrapper of
   src/services/deepgram_service.py, the telephony wrapper of
   src/services/telnyx_service.py and the demo customer lookup of
   src/services/customer_service.py.  External collaborator outcomes
   (telephony acknowledgments, transcription and generation results) are
   supplied by an explicit oracle; a failing collaborator call is an oracle
   entry of `none` / `false` and is translated exactly as the Python
   exception flow translates it (caught locally or propagated to the
   webhook as a 500). -/

/-- Role of a conversation-history entry, mirroring the "role" field of the
message dicts stored in `OpenAIService.conversations`. -/
inductive Role where
  | user
  | assistant
  deriving DecidableEq, Repr

/-- One entry of a per-call conversation history, mirroring the message dicts
`\x7b"role": r, "content": c\x7d` of `OpenAIService`. -/
structure ChatEntry where
  role : Role
  content : String
  deriving DecidableEq, Repr

/-- The per-call state dict created by `handle_call_answered` in src/app.py
(`answered`, `greeting_spoken`, `conversation_turn`, and the `listening` key
added later by `handle_speak_ended`; an absent `listening` key is `false`).
The unused `last_response_time` field is omitted. -/
structure CallState where
  answered : Bool
  greeting_spoken : Bool
  conversation_turn : Nat
  listening : Bool
  deriving DecidableEq, Repr

/-- Association-list lookup, modelling Python dict access `d.get(k)` /
`k in d` for the string-keyed dicts of the source. -/
def lookupA {α : Type} : List (String × α) → String → Option α
  | [], _ => none
  | (k, v) :: rest, i => if k = i then some v else lookupA rest i

/-- Association-list insert-or-replace, modelling Python dict assignment
`d[k] = v`. -/
def insertA {α : Type} : List (String × α) → String → α → List (String × α)
  | [], i, v => [(i, v)]
  | (k, w) :: rest, i, v =>
    if k = i then (i, v) :: rest else (k, w) :: insertA rest i v

/-- Association-list erase, modelling Python `del d[k]` (guarded by a
membership test in the source, so erasing an absent key is a no-op). -/
def eraseA {α : Type} : List (String × α) → String → List (String × α)
  | [], _ => []
  | (k, w) :: rest, i =>
    if k = i then eraseA rest i else (k, w) :: eraseA rest i

/-- Combined mutable state of the process: the `call_states` dict of
src/app.py and the `conversations` dict of `OpenAIService`. -/
structure Sys where
  call_states : List (String × CallState)
  conversations : List (String × List ChatEntry)
  deriving DecidableEq, Repr

/-- Actions requested from the telephony collaborator (TelnyxService calls),
plus the arming of the delayed stop-capture timer
(`asyncio.create_task(check_for_speech ...)`). -/
inductive Act where
  | answer (id : String)
  | speak (id : String) (text : String)
  | startCapture (id : String)
  | stopCapture (id : String)
  | hangup (id : String)
  | armTimer (id : String) (delay : Nat)
  deriving DecidableEq, Repr

/-- HTTP response of the webhook endpoint: 200 `\x7bstatus: ok\x7d`, or the
500 produced when a handler exception reaches the `except` clause of
`telnyx_webhook`. -/
inductive Resp where
  | ok200
  | err500
  deriving DecidableEq, Repr

/-- Result of handling one webhook event: the state after the handler ran
(including mutations made before an exception), the collaborator actions
successfully performed, and the HTTP response. -/
structure HRes where
  sys : Sys
  acts : List Act
  resp : Resp
  deriving DecidableEq, Repr

/-- Normalized webhook events, mirroring the `event_type` dispatch of
`telnyx_webhook` in src/app.py. -/
inductive Event where
  | callInitiated (id : String) (fromNum : String)
  | callAnswered (id : String) (fromNum : String)
  | recordingSaved (id : String) (url : String) (fromNum : String)
  | speakStarted (id : String)
  | speakEnded (id : String)
  | callHangup (id : String)
  | unrecognized
  deriving DecidableEq, Repr

/-- Outcomes of the external collaborator calls.  A `false` flag means the
corresponding TelnyxService method raises (after logging) as in
src/services/telnyx_service.py; `transcribe = none` means the Deepgram call
raised or returned no result; `generate = none` means the OpenAI call
raised.  `generate` receives the user input, the business context and the
two-letter language code, as `OpenAIService.generate_response` forwards
them to the API. -/
structure Oracle where
  answerOk : Bool
  speakOk : Bool
  hangupOk : Bool
  startRecOk : Bool
  stopRecOk : Bool
  transcribe : String → Option String
  generate : String → Option String → String → Option String

/-- Fixed prompt of the first silent attempt (src/app.py line 179). -/
def gentlePrompt : String :=
  "I didn\u0027t hear anything. Could you please speak up or say hello?"

/-- Fixed prompt of the second silent attempt (src/app.py line 182). -/
def specificPrompt : String :=
  "I\u0027m still not hearing you. You can ask me about appointments, business hours, or services. Please speak clearly."

/-- Fixed prompt of the third and later silent attempts (src/app.py line 185). -/
def helpPrompt : String :=
  "I\u0027m having trouble hearing you. You can say things like \u0027schedule appointment\u0027 or \u0027business hours\u0027. Please try again."

/-- Fixed fallback spoken when the generated reply is too short
(src/app.py line 170). -/
def fallbackPrompt : String :=
  "I didn\u0027t catch that. Could you please repeat?"

/-- Fixed apology returned by `OpenAIService.generate_response` when the
generation call raises (src/services/openai_service.py line 74). -/
def apologyText : String :=
  "I apologize, I\u0027m having trouble processing your request. Could you please repeat that?"

/-- Fixed transfer-to-human message spoken when the conversation-turn limit
is exceeded (src/app.py line 137). -/
def transferText : String :=
  "I apologize, but I need to transfer you to a human agent. Thank you for calling."

/-- Generic greeting used when no business profile matches the caller
(src/app.py line 115). -/
def genericGreeting : String :=
  "Hello! Thank you for calling. How can I help you today?"

/-- Business-context lookup of `CustomerService.get_business_context`,
restricted to the `name` field (the only field the webhook handlers read);
the two demo customers of `_load_demo_customers` are hard-coded. -/
def get_business_context (phone : String) : Option String :=
  if phone = "+1234567890" then some "Beautiful Hair Salon"
  else if phone = "+0987654321" then some "Luxury Day Spa"
  else none

/-- Language field of `CustomerService.get_voice_settings`: both demo
customers and the anonymous default carry language "en-US". -/
def voice_language (phone : String) : String :=
  if phone = "+1234567890" then "en-US"
  else if phone = "+0987654321" then "en-US"
  else "en-US"

/-- Python `str.strip()`: remove leading and trailing whitespace, modelled
over the character list of the string. -/
def stripStr (s : String) : String :=
  String.mk (((s.data.dropWhile Char.isWhitespace).reverse.dropWhile Char.isWhitespace).reverse)

/-- `DeepgramService.transcribe_audio`: on success the transcript is returned
stripped; on a missing result or any exception the empty string is returned
(the `except` clause of src/services/deepgram_service.py). -/
def transcribe_audio (o : Oracle) (url : String) : String :=
  match o.transcribe url with
  | some t => stripStr t
  | none => ""

/-- The history truncation of `OpenAIService.generate_response`
(`conversation_history[-20:]` applied when the length exceeds 20). -/
def trimHist (h : List ChatEntry) : List ChatEntry :=
  if 20 < h.length then h.drop (h.length - 20) else h

/-- The guard `if call_control_id not in self.conversations:
self.conversations[call_control_id] = []` of `generate_response`. -/
def ensureKey (convs : List (String × List ChatEntry)) (id : String) :
    List (String × List ChatEntry) :=
  match lookupA convs id with
  | none => insertA convs id []
  | some _ => convs

/-- `OpenAIService.generate_response` as a pure function of the
`conversations` dict, the user input, the call id and the outcome of the
chat-completion call (`none` = the API call raised).  On success the user
and assistant entries are appended and the history trimmed to 20 entries;
on failure the fixed apology is returned and no entry is appended.  The
system-prompt construction feeds only the external API call and is part of
the oracle. -/
def generate_response (convs : List (String × List ChatEntry))
    (user_input : String) (id : String) (result : Option String) :
    List (String × List ChatEntry) × String :=
  let convs1 := ensureKey convs id
  let history := (lookupA convs1 id).getD []
  match result with
  | none => (convs1, apologyText)
  | some ai =>
    let h2 := history ++ [⟨Role.user, user_input⟩, ⟨Role.assistant, ai⟩]
    (insertA convs1 id (trimHist h2), ai)

/-- The history stored for a call identifier, an absent entry reading as the
empty history. -/
def histOf (convs : List (String × List ChatEntry)) (id : String) : List ChatEntry :=
  (lookupA convs id).getD []

/-- `OpenAIService.clear_conversation`: delete the call's history if present. -/
def clear_conversation (convs : List (String × List ChatEntry)) (id : String) :
    List (String × List ChatEntry) :=
  eraseA convs id

/-- `handle_call_initiated` of src/app.py: answer the call; no session is
created.  A failing answer action propagates as an exception (500). -/
def handle_call_initiated (o : Oracle) (s : Sys) (id _fromNum : String) : HRes :=
  if o.answerOk then ⟨s, [Act.answer id], Resp.ok200⟩
  else ⟨s, [], Resp.err500⟩

/-- `handle_call_answered` of src/app.py: duplicate deliveries (an entry with
`answered` set) are acknowledged without any change; otherwise the session
entry is created, the greeting (business-specific when a profile matches the
caller) is spoken, and `greeting_spoken` is set afterwards.  A failing speak
leaves the fresh entry with `greeting_spoken = false` and propagates. -/
def handle_call_answered (o : Oracle) (s : Sys) (id fromNum : String) : HRes :=
  if (match lookupA s.call_states id with
      | some cs => cs.answered
      | none => false) then
    ⟨s, [], Resp.ok200⟩
  else
    let cs0 : CallState :=
      { answered := true, greeting_spoken := false,
        conversation_turn := 0, listening := false }
    let s1 : Sys := { s with call_states := insertA s.call_states id cs0 }
    let greeting := match get_business_context fromNum with
      | some name =>
        "Hello! Thank you for calling " ++ name ++ ". How can I help you today?"
      | none => genericGreeting
    if o.speakOk then
      ⟨{ s1 with call_states :=
           insertA s1.call_states id { cs0 with greeting_spoken := true } },
       [Act.speak id greeting], Resp.ok200⟩
    else ⟨s1, [], Resp.err500⟩

/-- Lines 141-190 of `handle_recording_saved`: transcription, the
meaningful-speech test `transcript and len(transcript.strip()) > 3`, reply
generation and validation, and the silence prompts keyed on the session's
total `conversation_turn`.  The state passed in already carries the
incremented turn counter. -/
def recordingTail (o : Oracle) (s : Sys) (id url fromNum : String) : HRes :=
  let transcript := transcribe_audio o url
  if transcript ≠ "" ∧ 3 < (stripStr transcript).length then
    let bc := get_business_context fromNum
    let language := (voice_language fromNum).take 2
    let pair := generate_response s.conversations transcript id
      (o.generate transcript bc language)
    let s1 : Sys := { s with conversations := pair.1 }
    let ai := pair.2
    if ai ≠ "" ∧ 10 < (stripStr ai).length then
      if o.speakOk then
        if o.startRecOk then
          ⟨s1, [Act.speak id ai, Act.startCapture id], Resp.ok200⟩
        else ⟨s1, [Act.speak id ai], Resp.err500⟩
      else ⟨s1, [], Resp.err500⟩
    else
      if o.speakOk then
        if o.startRecOk then
          ⟨s1, [Act.speak id fallbackPrompt, Act.startCapture id], Resp.ok200⟩
        else ⟨s1, [Act.speak id fallbackPrompt], Resp.err500⟩
      else ⟨s1, [], Resp.err500⟩
  else
    match lookupA s.call_states id with
    | some cs =>
      let prompt :=
        if cs.conversation_turn = 1 then gentlePrompt
        else if cs.conversation_turn = 2 then specificPrompt
        else helpPrompt
      if o.speakOk then
        if o.startRecOk then
          ⟨s, [Act.speak id prompt, Act.startCapture id], Resp.ok200⟩
        else ⟨s, [Act.speak id prompt], Resp.err500⟩
      else ⟨s, [], Resp.err500⟩
    | none =>
      if o.startRecOk then ⟨s, [Act.startCapture id], Resp.ok200⟩
      else ⟨s, [], Resp.err500⟩

/-- `handle_recording_saved` of src/app.py: if a session exists its
`conversation_turn` is incremented in place; past 10 turns the fixed
transfer message is spoken, a hangup is issued and the handler returns
(the session entry is not removed).  Otherwise processing continues with
`recordingTail`, also when no session exists for the identifier. -/
def handle_recording_saved (o : Oracle) (s : Sys) (id url fromNum : String) : HRes :=
  match lookupA s.call_states id with
  | some cs =>
    let cs1 := { cs with conversation_turn := cs.conversation_turn + 1 }
    let s1 : Sys := { s with call_states := insertA s.call_states id cs1 }
    if 10 < cs1.conversation_turn then
      if o.speakOk then
        if o.hangupOk then
          ⟨s1, [Act.speak id transferText, Act.hangup id], Resp.ok200⟩
        else ⟨s1, [Act.speak id transferText], Resp.err500⟩
      else ⟨s1, [], Resp.err500⟩
    else recordingTail o s1 id url fromNum
  | none => recordingTail o s id url fromNum

/-- `handle_speak_ended` of src/app.py: once `greeting_spoken` is set, every
speak-ended event starts a recording, sets the `listening` key and arms the
5-second `check_for_speech` timer; otherwise (or for an unknown identifier)
the event is acknowledged without effect. -/
def handle_speak_ended (o : Oracle) (s : Sys) (id : String) : HRes :=
  match lookupA s.call_states id with
  | some cs =>
    if cs.greeting_spoken then
      if o.startRecOk then
        ⟨{ s with call_states := insertA s.call_states id { cs with listening := true } },
         [Act.startCapture id, Act.armTimer id 5], Resp.ok200⟩
      else ⟨s, [], Resp.err500⟩
    else ⟨s, [], Resp.ok200⟩
  | none => ⟨s, [], Resp.ok200⟩

/-- `handle_call_hangup` of src/app.py: delete the session entry if present
and clear the conversation history; always acknowledged with 200 and no
collaborator action. -/
def handle_call_hangup (s : Sys) (id : String) : HRes :=
  ⟨{ call_states := eraseA s.call_states id,
     conversations := clear_conversation s.conversations id },
   [], Resp.ok200⟩

/-- The `check_for_speech` timer callback of src/app.py, evaluated at fire
time against the then-current state: if the identifier is no longer in
`call_states` nothing happens; otherwise a stop-capture is attempted, with
any exception caught and ignored.  The callback never mutates state. -/
def check_for_speech (o : Oracle) (s : Sys) (id : String) : List Act :=
  match lookupA s.call_states id with
  | none => []
  | some _ => if o.stopRecOk then [Act.stopCapture id] else []

/-- The `telnyx_webhook` dispatcher of src/app.py: recognized events go to
their handlers, speak-started and unrecognized events are acknowledged as
no-ops, and a handler exception is surfaced as a 500. -/
def telnyx_webhook (o : Oracle) (s : Sys) (e : Event) : HRes :=
  match e with
  | Event.callInitiated id fromNum => handle_call_initiated o s id fromNum
  | Event.callAnswered id fromNum => handle_call_answered o s id fromNum
  | Event.recordingSaved id url fromNum => handle_recording_saved o s id url fromNum
  | Event.speakStarted _ => ⟨s, [], Resp.ok200⟩
  | Event.speakEnded id => handle_speak_ended o s id
  | Event.callHangup id => handle_call_hangup s id
  | Event.unrecognized => ⟨s, [], Resp.ok200⟩

/-- Run a sequence of webhook events, accumulating the actions issued. -/
def runTrace (o : Oracle) : Sys → List Event → Sys × List Act
  | s, [] => (s, [])
  | s, e :: rest =>
    let r := telnyx_webhook o s e
    let p := runTrace o r.sys rest
    (p.1, r.acts ++ p.2)

/-- Whether an action is a speak request. -/
def isSpeak : Act → Bool
  | Act.speak _ _ => true
  | _ => false

/-- Whether an action is a start-capture request. -/
def isStartCapture : Act → Bool
  | Act.startCapture _ => true
  | _ => false

/-- Number of start-capture actions issued after the last speak action of a
trace (the captures belonging to the turn of the final speak). -/
def capturesAfterLastSpeak (acts : List Act) : Nat :=
  ((acts.reverse.takeWhile (fun a => !isSpeak a)).filter isStartCapture).length

/-- Boolean check that a history is a sequence of user/assistant pairs in
that order (the shape `generate_response` maintains). -/
def pairedUA : List ChatEntry → Bool
  | [] => true
  | [_] => false
  | u :: a :: rest =>
    (u.role == Role.user) && (a.role == Role.assistant) && pairedUA rest

/-- History-level operations of `OpenAIService` reachable from the webhook
handlers: a generation call (with its oracle outcome) and a clear on hangup. -/
inductive HistOp where
  | gen (id : String) (input : String) (result : Option String)
  | clear (id : String)

/-- Apply one history operation to the `conversations` dict. -/
def applyHistOp (convs : List (String × List ChatEntry)) : HistOp → List (String × List ChatEntry)
  | HistOp.gen id input result => (generate_response convs input id result).1
  | HistOp.clear id => clear_conversation convs id

/-- Apply a sequence of history operations starting from the empty dict. -/
def applyHistOps (ops : List HistOp) : List (String × List ChatEntry) :=
  ops.foldl applyHistOp []

/-- Oracle with every collaborator succeeding; transcription hears nothing
and generation produces an empty reply. -/
def oAllOk : Oracle :=
  { answerOk := true, speakOk := true, hangupOk := true,
    startRecOk := true, stopRecOk := true,
    transcribe := fun _ => some "", generate := fun _ _ _ => some "" }

/-- Oracle for the concrete traces: the recording at locator "good" carries
meaningful speech, every other locator is silent; generation succeeds with
an adequate-length reply; all telephony actions succeed. -/
def oTrace : Oracle :=
  { answerOk := true, speakOk := true, hangupOk := true,
    startRecOk := true, stopRecOk := true,
    transcribe := fun u => if u = "good" then some "I need an appointment" else some "",
    generate := fun _ _ _ => some "We have openings tomorrow at nine." }

/-- Oracle whose telephony speak action fails (the TelnyxService.speak_text
request raises); everything else succeeds. -/
def oSpeakFail : Oracle :=
  { oAllOk with speakOk := false }

/-- The empty process state. -/
def emptySys : Sys := { call_states := [], conversations := [] }

/-- A session that has been answered and greeted, with no turns yet. -/
def csFresh : CallState :=
  { answered := true, greeting_spoken := true, conversation_turn := 0, listening := true }

/-- A session that has already used ten conversation turns. -/
def csTurn10 : CallState :=
  { answered := true, greeting_spoken := true, conversation_turn := 10, listening := true }

/-- State holding one fresh answered session for call "A". -/
def sysFreshA : Sys := { call_states := [("A", csFresh)], conversations := [] }

/-- State holding one session for call "A" at ten turns. -/
def sysTurn10A : Sys := { call_states := [("A", csTurn10)], conversations := [] }

/-- State holding one answered session for call "A" whose `listening` key is
not set (the shape `handle_call_answered` leaves behind). -/
def sysAnsweredA : Sys :=
  { call_states :=
      [("A", { answered := true, greeting_spoken := true,
               conversation_turn := 0, listening := false })],
    conversations := [] }

/-- Well-formedness of a stored history: at most 20 entries and a clean
user/assistant pairing. -/
def wfHist (h : List ChatEntry) : Prop :=
  h.length ≤ 20 ∧ pairedUA h = true

/- Association-list lemmas. -/

theorem lookupA_insertA_self {α : Type} (l : List (String × α)) (k : String) (v : α) :
    lookupA (insertA l k v) k = some v := by
  induction l with
  | nil => simp [insertA, lookupA]
  | cons p rest ih =>
    obtain ⟨a, b⟩ := p
    by_cases h : a = k
    · simp [insertA, h, lookupA]
    · simp [insertA, h, lookupA, ih]

theorem lookupA_insertA_ne {α : Type} (l : List (String × α)) (k j : String) (v : α)
    (h : j ≠ k) : lookupA (insertA l k v) j = lookupA l j := by
  have hk : k ≠ j := Ne.symm h
  induction l with
  | nil => simp [insertA, lookupA, hk]
  | cons p rest ih =>
    obtain ⟨a, b⟩ := p
    by_cases hak : a = k
    · subst hak
      simp [insertA, lookupA, hk]
    · simp [insertA, hak, lookupA, ih]

theorem lookupA_eraseA_self {α : Type} (l : List (String × α)) (k : String) :
    lookupA (eraseA l k) k = none := by
  induction l with
  | nil => simp [eraseA, lookupA]
  | cons p rest ih =>
    obtain ⟨a, b⟩ := p
    by_cases h : a = k
    · simp [eraseA, h, ih]
    · simp [eraseA, h, lookupA, ih]

theorem lookupA_eraseA_ne {α : Type} (l : List (String × α)) (k j : String)
    (h : j ≠ k) : lookupA (eraseA l k) j = lookupA l j := by
  have hk : k ≠ j := Ne.symm h
  induction l with
  | nil => simp [eraseA]
  | cons p rest ih =>
    obtain ⟨a, b⟩ := p
    by_cases hak : a = k
    · subst hak
      simp [eraseA, lookupA, hk, ih]
    · simp [eraseA, hak, lookupA, ih]

theorem eraseA_of_lookupA_none {α : Type} (l : List (String × α)) (k : String)
    (h : lookupA l k = none) : eraseA l k = l := by
  induction l with
  | nil => simp [eraseA]
  | cons p rest ih =>
    obtain ⟨a, b⟩ := p
    simp only [lookupA] at h
    by_cases hak : a = k
    · simp [hak] at h
    · simp only [lookupA, hak, if_neg] at h
      simp [eraseA, hak, ih h]

theorem histOf_ensureKey (convs : List (String × List ChatEntry)) (id j : String) :
    histOf (ensureKey convs id) j = histOf convs j := by
  unfold ensureKey histOf
  cases hc : lookupA convs id with
  | none =>
    by_cases hj : j = id
    · subst hj; simp [lookupA_insertA_self, hc]
    · simp [lookupA_insertA_ne _ _ _ _ hj]
  | some h => rfl

theorem lookupA_ensureKey_self (convs : List (String × List ChatEntry)) (id : String) :
    lookupA (ensureKey convs id) id = some (histOf convs id) := by
  unfold ensureKey histOf
  cases hc : lookupA convs id with
  | none => simp [lookupA_insertA_self]
  | some h => simp [hc]

/- Pairing lemmas for the conversation history. -/

theorem pairedUA_append_pair (x y : String) :
    ∀ h : List ChatEntry, pairedUA h = true →
      pairedUA (h ++ [⟨Role.user, x⟩, ⟨Role.assistant, y⟩]) = true
  | [], _ => by simp [pairedUA]
  | [e], hp => by simp [pairedUA] at hp
  | e1 :: e2 :: rest, hp => by
    simp only [pairedUA, Bool.and_eq_true, beq_iff_eq] at hp
    simp only [List.cons_append, pairedUA, Bool.and_eq_true, beq_iff_eq]
    exact ⟨⟨hp.1.1, hp.1.2⟩, pairedUA_append_pair x y rest hp.2⟩

theorem pairedUA_even :
    ∀ h : List ChatEntry, pairedUA h = true → h.length % 2 = 0
  | [], _ => rfl
  | [e], hp => by simp [pairedUA] at hp
  | e1 :: e2 :: rest, hp => by
    simp only [pairedUA, Bool.and_eq_true] at hp
    have := pairedUA_even rest hp.2
    simp only [List.length_cons]
    omega

theorem pairedUA_tail (e1 e2 : ChatEntry) (rest : List ChatEntry)
    (hp : pairedUA (e1 :: e2 :: rest) = true) : pairedUA rest = true := by
  simp only [pairedUA, Bool.and_eq_true] at hp
  exact hp.2

/-- One successful generation step keeps the stored history within the
20-entry bound and correctly paired. -/
theorem wfHist_trim_append (h : List ChatEntry) (u r : String)
    (hw : wfHist h) :
    wfHist (trimHist (h ++ [⟨Role.user, u⟩, ⟨Role.assistant, r⟩])) := by
  obtain ⟨hlen, hp⟩ := hw
  have hp2 := pairedUA_append_pair u r h hp
  have heven := pairedUA_even h hp
  unfold trimHist wfHist
  by_cases hgt : 20 < (h ++ [(⟨Role.user, u⟩ : ChatEntry), ⟨Role.assistant, r⟩]).length
  · have hlen20 : h.length = 20 := by
      simp only [List.length_append, List.length_cons, List.length_nil] at hgt
      omega
    rcases h with _ | ⟨e1, t⟩
    · simp at hlen20
    rcases t with _ | ⟨e2, rest⟩
    · simp at hlen20
    simp only [List.length_cons] at hlen20
    have hrest : rest.length = 18 := by omega
    have hdrop : ((e1 :: e2 :: rest) ++ [⟨Role.user, u⟩, ⟨Role.assistant, r⟩] : List ChatEntry).length - 20 = 2 := by
      simp only [List.length_append, List.length_cons, List.length_nil]
      omega
    rw [if_pos hgt, hdrop]
    simp only [List.cons_append, List.drop_succ_cons, List.drop_zero]
    constructor
    · simp only [List.length_append, List.length_cons, List.length_nil]
      omega
    · exact pairedUA_append_pair u r rest (pairedUA_tail e1 e2 rest hp)
  · rw [if_neg hgt]
    exact ⟨by omega, hp2⟩

/-- Every history operation preserves well-formedness of all stored
histories. -/
theorem wfHist_applyHistOp (convs : List (String × List ChatEntry)) (op : HistOp)
    (hw : ∀ j, wfHist (histOf convs j)) :
    ∀ j, wfHist (histOf (applyHistOp convs op) j) := by
  intro j
  cases op with
  | clear id =>
    by_cases hj : j = id
    · subst hj
      simp only [applyHistOp, clear_conversation, histOf, lookupA_eraseA_self]
      exact ⟨by simp, rfl⟩
    · simp only [applyHistOp, clear_conversation, histOf, lookupA_eraseA_ne _ _ _ hj]
      exact hw j
  | gen id input result =>
    cases result with
    | none =>
      simp only [applyHistOp, generate_response]
      rw [show histOf (ensureKey convs id) j = histOf convs j from histOf_ensureKey convs id j]
      exact hw j
    | some ai =>
      simp only [applyHistOp, generate_response, lookupA_ensureKey_self]
      by_cases hj : j = id
      · subst hj
        simp only [histOf, lookupA_insertA_self, Option.getD_some]
        exact wfHist_trim_append _ input ai (hw j)
      · simp only [histOf, lookupA_insertA_ne _ _ _ _ hj]
        rw [show (lookupA (ensureKey convs id) j).getD [] = histOf (ensureKey convs id) j from rfl,
          histOf_ensureKey convs id j]
        exact hw j

/-- Well-formedness of all histories is preserved along any operation
sequence. -/
theorem wfHist_foldl (ops : List HistOp) :
    ∀ convs : List (String × List ChatEntry), (∀ j, wfHist (histOf convs j)) →
      ∀ j, wfHist (histOf (ops.foldl applyHistOp convs) j) := by
  induction ops with
  | nil => intro convs hw j; simpa using hw j
  | cons op rest ih =>
    intro convs hw j
    exact ih _ (wfHist_applyHistOp convs op hw) j

/-- C3: for every call and every sequence of history operations starting from
the empty store, the stored conversation history has at most 20 entries and
consists of correctly ordered user/assistant pairs (no orphaned tail at
all); and whenever an append exceeds the bound, the trimming drops entries
only from the front (the stored history is a suffix of the appended one). -/
theorem C3_history_bound :
    (∀ (ops : List HistOp) (id : String),
      (histOf (applyHistOps ops) id).length ≤ 20 ∧
      pairedUA (histOf (applyHistOps ops) id) = true) ∧
    (∀ (h : List ChatEntry) (u r : String),
      (trimHist (h ++ [⟨Role.user, u⟩, ⟨Role.assistant, r⟩])).IsSuffix
        (h ++ [⟨Role.user, u⟩, ⟨Role.assistant, r⟩])) := by
  constructor
  · intro ops id
    exact wfHist_foldl ops []
      (fun j => ⟨by simp [histOf, lookupA], by simp [histOf, lookupA, pairedUA]⟩) id
  · intro h u r
    unfold trimHist
    split
    · exact List.drop_suffix _ _
    · exact List.suffix_refl _

/- Shared characterization lemmas for the webhook handlers. -/

/-- On a silent (empty or too-short) transcript with a live session below the
turn limit and working telephony, `handle_recording_saved` increments the
turn counter and speaks the prompt selected by the new total turn count. -/
theorem recording_empty_step
    (o : Oracle) (s : Sys) (id url fromNum : String) (cs : CallState)
    (hls : lookupA s.call_states id = some cs)
    (hturn : cs.conversation_turn + 1 ≤ 10)
    (hspeak : o.speakOk = true) (hrec : o.startRecOk = true)
    (hsil : transcribe_audio o url = "" ∨ (stripStr (transcribe_audio o url)).length ≤ 3) :
    telnyx_webhook o s (Event.recordingSaved id url fromNum) =
      ⟨⟨insertA s.call_states id { cs with conversation_turn := cs.conversation_turn + 1 },
        s.conversations⟩,
       [Act.speak id (if cs.conversation_turn + 1 = 1 then gentlePrompt
          else if cs.conversation_turn + 1 = 2 then specificPrompt else helpPrompt),
        Act.startCapture id], Resp.ok200⟩ := by
  have hnot : ¬ (10 < cs.conversation_turn + 1) := by omega
  have hcond : ¬ (transcribe_audio o url ≠ "" ∧ 3 < (stripStr (transcribe_audio o url)).length) := by
    rcases hsil with h | h
    · intro hc; exact hc.1 h
    · intro hc; omega
  simp only [telnyx_webhook, handle_recording_saved, hls, hnot, if_false,
    recordingTail, hcond, if_false, lookupA_insertA_self, hspeak, hrec, if_true]

/-- A `CallAnswered` event for a session whose `answered` flag is set is a
pure no-op acknowledged with 200. -/
theorem answered_noop (o : Oracle) (s : Sys) (id fromNum : String) (cs : CallState)
    (hls : lookupA s.call_states id = some cs) (ha : cs.answered = true) :
    telnyx_webhook o s (Event.callAnswered id fromNum) = ⟨s, [], Resp.ok200⟩ := by
  simp [telnyx_webhook, handle_call_answered, hls, ha]

/-- With working speak and start-recording actions, the post-guard part of
`handle_recording_saved` always acknowledges with 200, whatever the
transcription and generation collaborators did. -/
theorem recordingTail_resp_ok (o : Oracle) (s : Sys) (id url fromNum : String)
    (hs : o.speakOk = true) (hr : o.startRecOk = true) :
    (recordingTail o s id url fromNum).resp = Resp.ok200 := by
  unfold recordingTail
  simp only [hs, hr, if_true]
  by_cases hc1 : transcribe_audio o url ≠ "" ∧ 3 < (stripStr (transcribe_audio o url)).length
  · rw [if_pos hc1]
    by_cases hc2 : (generate_response s.conversations (transcribe_audio o url) id
        (o.generate (transcribe_audio o url) (get_business_context fromNum)
          ((voice_language fromNum).take 2))).2 ≠ "" ∧
        10 < (stripStr (generate_response s.conversations (transcribe_audio o url) id
          (o.generate (transcribe_audio o url) (get_business_context fromNum)
            ((voice_language fromNum).take 2))).2).length
    · rw [if_pos hc2]
    · rw [if_neg hc2]
  · rw [if_neg hc1]
    cases lookupA s.call_states id with
    | some cs => rfl
    | none => rfl

/- Claim C1. -/

/-- C1, counterexample: the claim says an accepted transcript resets the
silence streak, so that the next empty transcript speaks the gentle prompt
again.  On a fresh session, after an empty recording (turn 1, gentle
prompt) followed by an accepted one (turn 2), the next empty recording is
answered with the help-oriented prompt, not the gentle one: the code keys
the prompt on the total turn count, which never resets. -/
theorem C1_counterexample :
    ((telnyx_webhook oTrace
        (telnyx_webhook oTrace
          (telnyx_webhook oTrace sysFreshA (Event.recordingSaved "A" "silent" "+1")).sys
          (Event.recordingSaved "A" "good" "+1")).sys
        (Event.recordingSaved "A" "silent" "+1")).acts =
      [Act.speak "A" helpPrompt, Act.startCapture "A"]) ∧ helpPrompt ≠ gentlePrompt := by
  decide

/-- C1, amended: three consecutive empty (or shorter-than-minimum)
transcripts arriving as the first three RecordingSaved events of a call
produce, in order, the gentle, specific and help-oriented re-prompts; the
prompt is selected by the call's total RecordingSaved count
(`conversation_turn`), which an accepted transcript does not reset. -/
theorem C1_amended :
    ∀ (o : Oracle) (s : Sys) (id u1 u2 u3 fromNum : String) (cs : CallState),
      lookupA s.call_states id = some cs → cs.conversation_turn = 0 →
      o.speakOk = true → o.startRecOk = true →
      (transcribe_audio o u1 = "" ∨ (stripStr (transcribe_audio o u1)).length ≤ 3) →
      (transcribe_audio o u2 = "" ∨ (stripStr (transcribe_audio o u2)).length ≤ 3) →
      (transcribe_audio o u3 = "" ∨ (stripStr (transcribe_audio o u3)).length ≤ 3) →
      (telnyx_webhook o s (Event.recordingSaved id u1 fromNum)).acts =
        [Act.speak id gentlePrompt, Act.startCapture id] ∧
      (telnyx_webhook o (telnyx_webhook o s (Event.recordingSaved id u1 fromNum)).sys
          (Event.recordingSaved id u2 fromNum)).acts =
        [Act.speak id specificPrompt, Act.startCapture id] ∧
      (telnyx_webhook o (telnyx_webhook o
            (telnyx_webhook o s (Event.recordingSaved id u1 fromNum)).sys
            (Event.recordingSaved id u2 fromNum)).sys
          (Event.recordingSaved id u3 fromNum)).acts =
        [Act.speak id helpPrompt, Act.startCapture id] := by
  intro o s id u1 u2 u3 fromNum cs hls h0 hs hr h1 h2 h3
  have e1 := recording_empty_step o s id u1 fromNum cs hls (by omega) hs hr h1
  have hls1 : lookupA (telnyx_webhook o s (Event.recordingSaved id u1 fromNum)).sys.call_states id =
      some { cs with conversation_turn := cs.conversation_turn + 1 } := by
    rw [e1]; exact lookupA_insertA_self _ _ _
  have e2 := recording_empty_step o _ id u2 fromNum _ hls1 (by simp; omega) hs hr h2
  have hls2 : lookupA (telnyx_webhook o (telnyx_webhook o s (Event.recordingSaved id u1 fromNum)).sys
      (Event.recordingSaved id u2 fromNum)).sys.call_states id =
      some { cs with conversation_turn := cs.conversation_turn + 1 + 1 } := by
    rw [e2]; exact lookupA_insertA_self _ _ _
  have e3 := recording_empty_step o _ id u3 fromNum _ hls2 (by simp; omega) hs hr h3
  refine ⟨?_, ?_, ?_⟩
  · rw [e1]; simp [h0]
  · rw [e2]; simp [h0]
  · rw [e3]; simp [h0]

/-- C1, witness: the first silent recording on a fresh session is answered
with the gentle prompt. -/
theorem C1_amended_witness :
    (telnyx_webhook oTrace sysFreshA (Event.recordingSaved "A" "u1" "+1")).acts =
      [Act.speak "A" gentlePrompt, Act.startCapture "A"] :=
  (C1_amended oTrace sysFreshA "A" "u1" "u2" "u3" "+1" csFresh (by decide) rfl rfl rfl
    (Or.inl (by decide)) (Or.inl (by decide)) (Or.inl (by decide))).1

/- Claim C2. -/

/-- C2, counterexample: the claim says the session is torn down (removed
from the registry) when the turn guard trips.  Delivering a RecordingSaved
to a session at ten turns speaks the transfer message and issues a hangup
action, but the session entry is still in the registry afterwards, now at
eleven turns. -/
theorem C2_counterexample :
    (telnyx_webhook oAllOk sysTurn10A (Event.recordingSaved "A" "rec" "+1")).acts =
      [Act.speak "A" transferText, Act.hangup "A"] ∧
    lookupA (telnyx_webhook oAllOk sysTurn10A (Event.recordingSaved "A" "rec" "+1")).sys.call_states "A" =
      some { answered := true, greeting_spoken := true,
             conversation_turn := 11, listening := true } := by
  decide

/-- C2, amended: when a RecordingSaved event increments `conversation_turn`
past 10, the controller speaks the fixed transfer-to-human message and
issues a hangup action, and no capture action is issued by that handler;
the session entry is NOT removed from the registry by this path (teardown
happens only when the resulting `call.hangup` webhook arrives). -/
theorem C2_amended :
    ∀ (o : Oracle) (s : Sys) (id url fromNum : String) (cs : CallState),
      lookupA s.call_states id = some cs → 10 ≤ cs.conversation_turn →
      o.speakOk = true → o.hangupOk = true →
      (handle_recording_saved o s id url fromNum).acts =
        [Act.speak id transferText, Act.hangup id] ∧
      lookupA (handle_recording_saved o s id url fromNum).sys.call_states id =
        some { cs with conversation_turn := cs.conversation_turn + 1 } ∧
      (∀ a ∈ (handle_recording_saved o s id url fromNum).acts, isStartCapture a = false) ∧
      (handle_recording_saved o s id url fromNum).resp = Resp.ok200 := by
  intro o s id url fromNum cs hls hturn hs hh
  have hgt : 10 < cs.conversation_turn + 1 := by omega
  simp only [handle_recording_saved, hls]
  rw [if_pos hgt]
  simp only [hs, hh, if_true]
  refine ⟨by trivial, lookupA_insertA_self _ _ _, ?_, by trivial⟩
  intro a ha
  simp only [List.mem_cons, List.not_mem_nil, or_false] at ha
  rcases ha with rfl | rfl <;> rfl

/-- C2, witness: the transfer message and hangup are issued at the eleventh
turn, with the session still registered. -/
theorem C2_amended_witness :
    (handle_recording_saved oAllOk sysTurn10A "A" "rec2" "+1").acts =
      [Act.speak "A" transferText, Act.hangup "A"] :=
  (C2_amended oAllOk sysTurn10A "A" "rec2" "+1" csTurn10 (by decide) (by decide) rfl rfl).1

/- Claim C4. -/

/-- C4, counterexample: the claim says every speak is eventually followed by
exactly one start-capture for that turn.  In the trace greeting, greeting
speak-ended, accepted recording (reply spoken and capture restarted), reply
speak-ended, the final reply speak is followed by two start-capture
actions: one issued in the RecordingSaved handler right after the speak,
and a second issued by the SpeakEnded handler, which starts a capture on
every speak-ended event once the greeting has been spoken. -/
theorem C4_counterexample :
    capturesAfterLastSpeak (runTrace oTrace emptySys
      [Event.callAnswered "A" "+15550001111", Event.speakEnded "A",
       Event.recordingSaved "A" "good" "+15550001111", Event.speakEnded "A"]).2 = 2 := by
  decide

/-- C4, amended: on every non-terminal RecordingSaved event for a live
session, the handler issues exactly one speak followed by exactly one
start-capture; in addition, every SpeakEnded event for a session whose
greeting has been spoken issues one further start-capture (and arms the
stop-capture timer), so a turn whose reply speak-ended is delivered
receives a second capture. -/
theorem C4_amended :
    (∀ (o : Oracle) (s : Sys) (id url fromNum : String) (cs : CallState),
      lookupA s.call_states id = some cs → cs.conversation_turn + 1 ≤ 10 →
      o.speakOk = true → o.startRecOk = true →
      ∃ t, (handle_recording_saved o s id url fromNum).acts =
        [Act.speak id t, Act.startCapture id]) ∧
    (∀ (o : Oracle) (s : Sys) (id : String) (cs : CallState),
      lookupA s.call_states id = some cs → cs.greeting_spoken = true →
      o.startRecOk = true →
      (handle_speak_ended o s id).acts = [Act.startCapture id, Act.armTimer id 5]) := by
  constructor
  · intro o s id url fromNum cs hls hturn hs hr
    have hnot : ¬ (10 < cs.conversation_turn + 1) := by omega
    simp only [handle_recording_saved, hls]
    rw [if_neg hnot]
    unfold recordingTail
    simp only [hs, hr, if_true, lookupA_insertA_self]
    by_cases hc1 : transcribe_audio o url ≠ "" ∧ 3 < (stripStr (transcribe_audio o url)).length
    · rw [if_pos hc1]
      by_cases hc2 : (generate_response s.conversations (transcribe_audio o url) id
          (o.generate (transcribe_audio o url) (get_business_context fromNum)
            ((voice_language fromNum).take 2))).2 ≠ "" ∧
          10 < (stripStr (generate_response s.conversations (transcribe_audio o url) id
            (o.generate (transcribe_audio o url) (get_business_context fromNum)
              ((voice_language fromNum).take 2))).2).length
      · rw [if_pos hc2]
        exact ⟨_, rfl⟩
      · rw [if_neg hc2]
        exact ⟨fallbackPrompt, rfl⟩
    · rw [if_neg hc1]
      exact ⟨_, rfl⟩
  · intro o s id cs hls hgs hr
    simp only [handle_speak_ended, hls, hgs, hr, if_true]

/-- C4, witness: an accepted recording on a fresh session produces one speak
followed by one start-capture in the handler. -/
theorem C4_amended_witness :
    ∃ t, (handle_recording_saved oTrace sysFreshA "A" "good" "+1").acts =
      [Act.speak "A" t, Act.startCapture "A"] :=
  C4_amended.1 oTrace sysFreshA "A" "good" "+1" csFresh (by decide) (by decide) rfl rfl

/- Claim C5. -/

/-- C5, counterexample: the claim says a session is created on the first
call.initiated event for an unseen identifier and that no action is taken
against an identifier with no session except recreating one.  Handling
call.initiated for an unseen identifier leaves the registry empty while
still issuing an answer action against that identifier. -/
theorem C5_counterexample :
    (telnyx_webhook oAllOk emptySys (Event.callInitiated "A" "+15550001111")).sys.call_states = [] ∧
    (telnyx_webhook oAllOk emptySys (Event.callInitiated "A" "+15550001111")).acts =
      [Act.answer "A"] := by
  decide

/-- C5, amended: the registry entry for a call is created on the first
call.answered event for an unseen identifier (with `answered` and
`greeting_spoken` set and zero turns); call.initiated never touches the
registry, it only issues an answer action against the sessionless
identifier. -/
theorem C5_amended :
    (∀ (o : Oracle) (s : Sys) (id fromNum : String),
      o.speakOk = true → lookupA s.call_states id = none →
      lookupA (telnyx_webhook o s (Event.callAnswered id fromNum)).sys.call_states id =
        some { answered := true, greeting_spoken := true,
               conversation_turn := 0, listening := false }) ∧
    (∀ (o : Oracle) (s : Sys) (id fromNum : String),
      (telnyx_webhook o s (Event.callInitiated id fromNum)).sys = s) := by
  constructor
  · intro o s id fromNum hs hnone
    simp only [telnyx_webhook, handle_call_answered, hnone, hs, if_true]
    exact lookupA_insertA_self _ _ _
  · intro o s id fromNum
    simp only [telnyx_webhook, handle_call_initiated]
    split <;> rfl

/-- C5, witness: answering an unseen call creates its registry entry. -/
theorem C5_amended_witness :
    lookupA (telnyx_webhook oAllOk emptySys (Event.callAnswered "A" "+15550001111")).sys.call_states "A" =
      some { answered := true, greeting_spoken := true,
             conversation_turn := 0, listening := false } :=
  C5_amended.1 oAllOk emptySys "A" "+15550001111" rfl (by decide)

/- Claim C6. -/

/-- C6: delivering CallAnswered twice for the same identifier produces
exactly one speak-greeting action; the second delivery issues no action,
changes no state, and is acknowledged with 200. -/
theorem C6_answered_idempotent :
    ∀ (o : Oracle) (s : Sys) (id fromNum : String),
      o.speakOk = true → lookupA s.call_states id = none →
      (∃ g, (telnyx_webhook o s (Event.callAnswered id fromNum)).acts = [Act.speak id g]) ∧
      (telnyx_webhook o (telnyx_webhook o s (Event.callAnswered id fromNum)).sys
          (Event.callAnswered id fromNum)).acts = [] ∧
      (telnyx_webhook o (telnyx_webhook o s (Event.callAnswered id fromNum)).sys
          (Event.callAnswered id fromNum)).sys =
        (telnyx_webhook o s (Event.callAnswered id fromNum)).sys ∧
      (telnyx_webhook o (telnyx_webhook o s (Event.callAnswered id fromNum)).sys
          (Event.callAnswered id fromNum)).resp = Resp.ok200 := by
  intro o s id fromNum hs hnone
  have h1 : lookupA (telnyx_webhook o s (Event.callAnswered id fromNum)).sys.call_states id =
      some { answered := true, greeting_spoken := true,
             conversation_turn := 0, listening := false } := by
    simp only [telnyx_webhook, handle_call_answered, hnone, hs, if_true]
    exact lookupA_insertA_self _ _ _
  refine ⟨?_, ?_, ?_, ?_⟩
  · simp only [telnyx_webhook, handle_call_answered, hnone, hs, if_true]
    exact ⟨_, rfl⟩
  · rw [answered_noop o _ id fromNum _ h1 rfl]
  · rw [answered_noop o _ id fromNum _ h1 rfl]
  · rw [answered_noop o _ id fromNum _ h1 rfl]

/-- C6, witness: the second CallAnswered for call "A" issues no action. -/
theorem C6_answered_witness :
    (telnyx_webhook oAllOk (telnyx_webhook oAllOk emptySys (Event.callAnswered "A" "+15550001111")).sys
        (Event.callAnswered "A" "+15550001111")).acts = [] :=
  (C6_answered_idempotent oAllOk emptySys "A" "+15550001111" rfl (by decide)).2.1

/- Claim C7. -/

/-- C7, counterexample: the claim says a collaborator failure is never
propagated to the webhook caller as a non-2xx response.  When the telephony
speak action fails while greeting an answered call, the exception reaches
the webhook dispatcher and the response is a 500. -/
theorem C7_counterexample :
    (telnyx_webhook oSpeakFail emptySys (Event.callAnswered "A" "+15550001111")).resp =
      Resp.err500 := by
  decide

/-- C7, amended: failures of the transcription and generation collaborators
are recovered locally (empty transcript, fixed apology) and the
RecordingSaved webhook still answers 200 whenever the telephony actions
succeed; failures of telephony control actions, however, are re-raised and
reach the webhook caller as a 500 (here: a failing speak while greeting an
unseen answered call). -/
theorem C7_amended :
    (∀ (o : Oracle) (s : Sys) (id url fromNum : String),
      o.speakOk = true → o.hangupOk = true → o.startRecOk = true →
      (telnyx_webhook o s (Event.recordingSaved id url fromNum)).resp = Resp.ok200) ∧
    (∀ (o : Oracle) (s : Sys) (id fromNum : String),
      o.speakOk = false → lookupA s.call_states id = none →
      (telnyx_webhook o s (Event.callAnswered id fromNum)).resp = Resp.err500) := by
  constructor
  · intro o s id url fromNum hs hh hr
    cases hls : lookupA s.call_states id with
    | some cs =>
      simp only [telnyx_webhook, handle_recording_saved, hls]
      by_cases hgt : 10 < cs.conversation_turn + 1
      · rw [if_pos hgt]
        simp [hs, hh]
      · rw [if_neg hgt]
        exact recordingTail_resp_ok o _ id url fromNum hs hr
    | none =>
      simp only [telnyx_webhook, handle_recording_saved, hls]
      exact recordingTail_resp_ok o s id url fromNum hs hr
  · intro o s id fromNum hs hnone
    simp [telnyx_webhook, handle_call_answered, hnone, hs]

/-- C7, witness: a RecordingSaved event is acknowledged with 200 under
working telephony, whatever transcription and generation return. -/
theorem C7_amended_witness :
    (telnyx_webhook oAllOk emptySys (Event.recordingSaved "A" "u" "+1")).resp = Resp.ok200 :=
  C7_amended.1 oAllOk emptySys "A" "u" "+1" rfl rfl rfl

/- Claim C8. -/

/-- C8: a CallHangup event in any state answers 200 with no collaborator
action, removes the session entry and the conversation history for that
identifier, touches no other identifier, and is a no-op (state unchanged)
when the identifier has no session and no history — so a repeated hangup
is acknowledged successfully without effect. -/
theorem C8_hangup_idempotent :
    ∀ (o : Oracle) (s : Sys) (id : String),
      (telnyx_webhook o s (Event.callHangup id)).resp = Resp.ok200 ∧
      (telnyx_webhook o s (Event.callHangup id)).acts = [] ∧
      lookupA (telnyx_webhook o s (Event.callHangup id)).sys.call_states id = none ∧
      lookupA (telnyx_webhook o s (Event.callHangup id)).sys.conversations id = none ∧
      (∀ j, j ≠ id →
        lookupA (telnyx_webhook o s (Event.callHangup id)).sys.call_states j =
          lookupA s.call_states j ∧
        lookupA (telnyx_webhook o s (Event.callHangup id)).sys.conversations j =
          lookupA s.conversations j) ∧
      (lookupA s.call_states id = none → lookupA s.conversations id = none →
        (telnyx_webhook o s (Event.callHangup id)).sys = s) := by
  intro o s id
  refine ⟨rfl, rfl, lookupA_eraseA_self _ _, lookupA_eraseA_self _ _, ?_, ?_⟩
  · intro j hj
    exact ⟨lookupA_eraseA_ne _ _ _ hj, lookupA_eraseA_ne _ _ _ hj⟩
  · intro h1 h2
    simp only [telnyx_webhook, handle_call_hangup, clear_conversation,
      eraseA_of_lookupA_none _ _ h1, eraseA_of_lookupA_none _ _ h2]

/-- C8, witness: a hangup for an identifier with no session is acknowledged
with 200. -/
theorem C8_hangup_witness :
    (telnyx_webhook oAllOk emptySys (Event.callHangup "A")).resp = Resp.ok200 :=
  (C8_hangup_idempotent oAllOk emptySys "A").1

/- Claim C9. -/

/-- C9, counterexample: the claim says the timer callback re-checks that the
session is still in Listening and performs no stop-capture otherwise.  On a
state holding an answered session whose `listening` key is not set (the
state left by handle_call_answered, before any speak-ended), the callback
still issues a stop-capture: the code checks only registry membership,
never the Listening state. -/
theorem C9_counterexample :
    (lookupA sysAnsweredA.call_states "A").map CallState.listening = some false ∧
    check_for_speech oAllOk sysAnsweredA "A" = [Act.stopCapture "A"] := by
  decide

/-- C9, amended: the timer callback re-checks only that the session still
exists; if the session was torn down by hangup the callback performs no
action, and for any existing session — whatever its `listening` state — it
issues a stop-capture (exceptions of the stop action are swallowed). -/
theorem C9_amended :
    (∀ (o : Oracle) (s : Sys) (id : String),
      lookupA s.call_states id = none → check_for_speech o s id = []) ∧
    (∀ (o : Oracle) (s : Sys) (id : String) (cs : CallState),
      lookupA s.call_states id = some cs → o.stopRecOk = true →
      check_for_speech o s id = [Act.stopCapture id]) := by
  constructor
  · intro o s id h
    simp [check_for_speech, h]
  · intro o s id cs h hok
    simp [check_for_speech, h, hok]

/-- C9, witness: after hangup removed the session, the callback does
nothing. -/
theorem C9_amended_witness :
    check_for_speech oAllOk emptySys "A" = [] :=
  C9_amended.1 oAllOk emptySys "A" (by decide)

/- Claim C10. -/

/-- C10: when the generation call raises, `generate_response` returns the
fixed apology string and every stored conversation history reads the same
as before the call — in particular the triggering user utterance is not
appended (the dict may gain an empty entry for a previously unseen
identifier, which still reads as the empty history). -/
theorem C10_generate_error_atomic :
    ∀ (convs : List (String × List ChatEntry)) (u id j : String),
      (generate_response convs u id none).2 = apologyText ∧
      histOf (generate_response convs u id none).1 j = histOf convs j := by
  intro convs u id j
  exact ⟨rfl, histOf_ensureKey convs id j⟩
